import Mathlib

/-!
Verification of the client-side OAuth2/PKCE authentication core of the
healthgpt repository (`src/hooks/use-auth.ts`).

The development shallowly embeds the auth core:
* `CryptoUtils` (`generateRandomString`, `extractJwtId` together with the
  browser primitives `atob` and `JSON.parse` it relies on) as pure functions;
* the stateful core (`memoryTokens`/`storage`, the `api` wrappers and the
  `auth` state machine) as explicit state passing in a state-plus-exception
  monad `M`, with network behaviour supplied by response queues held in the
  state and JavaScript `throw`/`try`/`catch` mapped to `Except`/`tryCatch`.

The mutually recursive pair `validateAndSetUser`/`refreshToken` is given an
explicit fuel argument; running out of fuel raises the designated error
`JsErr.outOfFuel`, standing in for divergence of the JavaScript original.
-/

set_option maxHeartbeats 1000000

/-! ## JSON values and `JSON.parse`

`extractJwtId` in the source calls the browser's `JSON.parse`.  We model JSON
values with numbers kept as their source lexeme (only their truthiness is ever
consumed by the code under verification). -/

/-- JSON values as produced by `JSON.parse`. -/
inductive Json where
  | null
  | bool (b : Bool)
  | num (lexeme : String)
  | str (s : String)
  | arr (elems : List Json)
  | obj (fields : List (String × Json))

/-- JSON whitespace characters. -/
def isJsonWs (c : Char) : Bool :=
  c = ' ' ∨ c = '\t' ∨ c = '\n' ∨ c = '\r'

/-- Drop leading JSON whitespace. -/
def skipWs : List Char → List Char
  | c :: cs => if isJsonWs c then skipWs cs else c :: cs
  | [] => []

/-- ASCII decimal digit test. -/
def isDigitCh (c : Char) : Bool := '0' ≤ c ∧ c ≤ '9'

/-- Consume a maximal run of decimal digits, returning the run and the rest. -/
def takeDigits : List Char → String × List Char
  | c :: cs =>
    if isDigitCh c then
      let (s, r) := takeDigits cs
      (String.singleton c ++ s, r)
    else ("", c :: cs)
  | [] => ("", [])

/-- Parse the optional exponent part of a JSON number, given the lexeme
consumed so far. -/
def parseExpPart (acc : String) (cs : List Char) : Option (String × List Char) :=
  match cs with
  | e :: r =>
    if e = 'e' ∨ e = 'E' then
      let (sgn, r1) :=
        match r with
        | '+' :: t => ("+", t)
        | '-' :: t => ("-", t)
        | _ => ("", r)
      match r1 with
      | d :: _ =>
        if isDigitCh d then
          let (ds, r2) := takeDigits r1
          some (acc ++ String.singleton e ++ sgn ++ ds, r2)
        else none
      | [] => none
    else some (acc, cs)
  | [] => some (acc, [])

/-- Parse the optional fraction part of a JSON number, then the exponent. -/
def parseFracPart (acc : String) (cs : List Char) : Option (String × List Char) :=
  match cs with
  | '.' :: r =>
    match r with
    | d :: _ =>
      if isDigitCh d then
        let (ds, r2) := takeDigits r
        parseExpPart (acc ++ "." ++ ds) r2
      else none
    | [] => none
  | _ => parseExpPart acc cs

/-- Parse a JSON number, returning its lexeme. -/
def parseNumber (cs : List Char) : Option (String × List Char) :=
  let (sign, cs1) :=
    match cs with
    | '-' :: r => ("-", r)
    | _ => ("", cs)
  match cs1 with
  | c :: r =>
    if c = '0' then parseFracPart (sign ++ "0") r
    else if isDigitCh c then
      let (ds, r') := takeDigits r
      parseFracPart (sign ++ String.singleton c ++ ds) r'
    else none
  | [] => none

/-- Hexadecimal digit value. -/
def hexVal (c : Char) : Option Nat :=
  if '0' ≤ c ∧ c ≤ '9' then some (c.toNat - '0'.toNat)
  else if 'a' ≤ c ∧ c ≤ 'f' then some (c.toNat - 'a'.toNat + 10)
  else if 'A' ≤ c ∧ c ≤ 'F' then some (c.toNat - 'A'.toNat + 10)
  else none

/-- Parse the body of a JSON string (after the opening quote), handling the
escape sequences of the JSON grammar. -/
def parseStringBody : List Char → Option (String × List Char)
  | '"' :: r => some ("", r)
  | '\\' :: e :: r =>
    match e with
    | '"' => (parseStringBody r).map fun (s, r') => (String.singleton '"' ++ s, r')
    | '\\' => (parseStringBody r).map fun (s, r') => (String.singleton '\\' ++ s, r')
    | '/' => (parseStringBody r).map fun (s, r') => (String.singleton '/' ++ s, r')
    | 'b' => (parseStringBody r).map fun (s, r') => (String.singleton '\x08' ++ s, r')
    | 'f' => (parseStringBody r).map fun (s, r') => (String.singleton '\x0c' ++ s, r')
    | 'n' => (parseStringBody r).map fun (s, r') => (String.singleton '\n' ++ s, r')
    | 'r' => (parseStringBody r).map fun (s, r') => (String.singleton '\r' ++ s, r')
    | 't' => (parseStringBody r).map fun (s, r') => (String.singleton '\t' ++ s, r')
    | 'u' =>
      match r with
      | a :: b :: c :: d :: r' =>
        match hexVal a, hexVal b, hexVal c, hexVal d with
        | some ha, some hb, some hc, some hd =>
          let code := ((ha * 16 + hb) * 16 + hc) * 16 + hd
          (parseStringBody r').map fun (s, r'') =>
            (String.singleton (Char.ofNat code) ++ s, r'')
        | _, _, _, _ => none
      | _ => none
    | _ => none
  | c :: r =>
    if c.toNat < 0x20 then none
    else (parseStringBody r).map fun (s, r') => (String.singleton c ++ s, r')
  | [] => none

mutual

/-- Parse a JSON value (fuelled recursive descent). -/
def parseValue : Nat → List Char → Option (Json × List Char)
  | 0, _ => none
  | fuel + 1, cs =>
    match skipWs cs with
    | 'n' :: 'u' :: 'l' :: 'l' :: r => some (Json.null, r)
    | 't' :: 'r' :: 'u' :: 'e' :: r => some (Json.bool true, r)
    | 'f' :: 'a' :: 'l' :: 's' :: 'e' :: r => some (Json.bool false, r)
    | '"' :: r => (parseStringBody r).map fun (s, r') => (Json.str s, r')
    | '[' :: r =>
      (match skipWs r with
       | ']' :: r' => some (Json.arr [], r')
       | _ => (parseElems fuel r).map fun (es, r') => (Json.arr es, r'))
    | '\x7b' :: r =>
      (match skipWs r with
       | '\x7d' :: r' => some (Json.obj [], r')
       | _ => (parseMembers fuel r).map fun (fs, r') => (Json.obj fs, r'))
    | other =>
      (parseNumber other).map fun (lex, r) => (Json.num lex, r)

/-- Parse the comma-separated element list of a JSON array, including the
closing bracket. -/
def parseElems : Nat → List Char → Option (List Json × List Char)
  | 0, _ => none
  | fuel + 1, cs => do
    let (v, r) ← parseValue fuel cs
    match skipWs r with
    | ',' :: r' => (parseElems fuel r').map fun (vs, r'') => (v :: vs, r'')
    | ']' :: r' => some ([v], r')
    | _ => none

/-- Parse the comma-separated member list of a JSON object, including the
closing brace. -/
def parseMembers : Nat → List Char → Option (List (String × Json) × List Char)
  | 0, _ => none
  | fuel + 1, cs =>
    match skipWs cs with
    | '"' :: r => do
      let (k, r1) ← parseStringBody r
      match skipWs r1 with
      | ':' :: r2 => do
        let (v, r3) ← parseValue fuel r2
        match skipWs r3 with
        | ',' :: r4 => (parseMembers fuel r4).map fun (fs, r5) => ((k, v) :: fs, r5)
        | '\x7d' :: r4 => some ([(k, v)], r4)
        | _ => none
      | _ => none
    | _ => none

end

/-- Model of `JSON.parse`: parse a complete JSON document; trailing content
other than whitespace is an error.  The fuel `s.length + 1` dominates the
recursion depth because every nested parse is preceded by consuming at least
one character. -/
def jsonParse (s : String) : Option Json :=
  match parseValue (s.length + 1) s.data with
  | some (v, rest) => if (skipWs rest).isEmpty then some v else none
  | none => none

/-! ## Base64 decoding (`atob`) -/

/-- ASCII whitespace removed by forgiving-base64 decoding. -/
def isB64Ws (c : Char) : Bool :=
  c = ' ' ∨ c = '\t' ∨ c = '\n' ∨ c = '\x0c' ∨ c = '\r'

/-- Value of a base64 alphabet character. -/
def b64Val (c : Char) : Option Nat :=
  if 'A' ≤ c ∧ c ≤ 'Z' then some (c.toNat - 'A'.toNat)
  else if 'a' ≤ c ∧ c ≤ 'z' then some (c.toNat - 'a'.toNat + 26)
  else if '0' ≤ c ∧ c ≤ '9' then some (c.toNat - '0'.toNat + 52)
  else if c = '+' then some 62
  else if c = '/' then some 63
  else none

/-- Strip at most two trailing padding characters. -/
def stripB64Padding (cs : List Char) : List Char :=
  match cs.reverse with
  | '=' :: '=' :: r => r.reverse
  | '=' :: r => r.reverse
  | _ => cs

/-- Convert a list of sextet values to bytes; leftover bits of a final partial
group are discarded, as in forgiving-base64 decoding. -/
def b64Sextets : List Nat → List Nat
  | a :: b :: c :: d :: rest =>
    (a * 4 + b / 16) :: ((b % 16) * 16 + c / 4) :: ((c % 4) * 64 + d) :: b64Sextets rest
  | [a, b] => [a * 4 + b / 16]
  | [a, b, c] => [a * 4 + b / 16, (b % 16) * 16 + c / 4]
  | _ => []

/-- Model of the browser's `atob` (WHATWG forgiving-base64 decode): remove
ASCII whitespace, strip padding when the length is a multiple of four, fail on
a leftover length of one or on characters outside the base64 alphabet. -/
def atob (input : String) : Option String :=
  let data0 := input.data.filter fun c => !isB64Ws c
  let data := if data0.length % 4 = 0 then stripB64Padding data0 else data0
  if data.length % 4 = 1 then none
  else
    match data.mapM b64Val with
    | some vals => some (String.mk ((b64Sextets vals).map Char.ofNat))
    | none => none

/-! ## `extractJwtId` -/

/-- Mantissa-zero test on a number lexeme (JavaScript truthiness of the parsed
number): the number is zero exactly when every mantissa digit is `0`. -/
def numLexIsZero (lex : String) : Bool :=
  (lex.data.takeWhile fun c => c ≠ 'e' ∧ c ≠ 'E').all fun c => !isDigitCh c ∨ c = '0'

/-- JavaScript truthiness of a JSON value. -/
def jsTruthy : Json → Bool
  | Json.null => false
  | Json.bool b => b
  | Json.num lex => !numLexIsZero lex
  | Json.str s => !s.isEmpty
  | Json.arr _ => true
  | Json.obj _ => true

/-- Property lookup on a list of JSON object members: as with `JSON.parse`,
the last occurrence of a duplicated key wins. -/
def lookupLastField (fields : List (String × Json)) (key : String) : Option Json :=
  match fields with
  | [] => none
  | (k, v) :: rest =>
    match lookupLastField rest key with
    | some r => some r
    | none => if k = key then some v else none

/-- Reading `payload.jti`: a non-object payload has no `jti` property (for
`null` the resulting TypeError is caught by `extractJwtId` with the same
observable outcome). -/
def jtiOf : Json → Option Json
  | Json.obj fields => lookupLastField fields "jti"
  | _ => none

/-- Model of JavaScript `token.split(".")`: every occurrence of `.` separates
segments, so `""` yields `[""]`, `"a..b"` yields `["a", "", "b"]` and a
trailing dot yields a trailing empty segment. -/
def jsSplitDot : List Char → List String
  | [] => [""]
  | c :: rest =>
    if c = '.' then "" :: jsSplitDot rest
    else
      match jsSplitDot rest with
      | s :: ss => (String.singleton c ++ s) :: ss
      | [] => [String.singleton c]

/-- Embedding of `extractJwtId` (use-auth.ts lines 70-80): take the second
dot-separated segment, base64-decode it, `JSON.parse` the result and return
its `jti` property; any failure, and a falsy segment or `jti`, yields `null`
(here `none`).  The function is total, so it never throws. -/
def extractJwtId (token : String) : Option Json :=
  match (jsSplitDot token.data).get? 1 with
  | none => none
  | some payloadBase64 =>
    if payloadBase64.isEmpty then none
    else
      match atob payloadBase64 with
      | none => none
      | some decoded =>
        match jsonParse decoded with
        | none => none
        | some payload =>
          match jtiOf payload with
          | some v => if jsTruthy v then some v else none
          | none => none

/-! ## `generateRandomString` -/

/-- Character set used by `generateRandomString` (use-auth.ts line 55). -/
def oauthCharset : String := "abcdefghijklmnopqrstuvwxyz0123456789"

/-- JavaScript `String.prototype.charAt`: a one-character string, or the empty
string when the index is out of range. -/
def jsCharAt (s : String) (i : Nat) : String :=
  match s.data.get? i with
  | some c => String.singleton c
  | none => ""

/-- Embedding of `generateRandomString` (use-auth.ts lines 54-57).  Each call
to `Math.floor(Math.random() * charset.length)` yields a value in
`[0, 35]`, modelled by the draw sequence `draws`. -/
def generateRandomString (length : Nat) (draws : Nat → Fin 36) : String :=
  String.join ((List.range length).map fun i => jsCharAt oauthCharset (draws i))

/-! ## The auth core state

A single record holds everything the auth core reads or writes: the durable
code verifier (`localStorage`), the in-memory token record (`memoryTokens`),
the React session state, the URL's `code` query parameter, the single-flight
flag, and the behaviour of the three remote endpoints as queues of pending
responses (one entry consumed per request; an exhausted queue behaves as a
network error).  Call counters record how many requests each endpoint saw. -/

/-- Introspection result (`UserDetails` interface, use-auth.ts lines 2-7). -/
structure UserDetails where
  active : Bool
  client_id : String
  sub : String
  email : String
deriving DecidableEq, Repr

/-- Token endpoint response (`TokenResponse` interface, use-auth.ts lines
9-15); the absent/empty cases of `access_token` coincide on the empty string,
matching the falsiness test the code performs. -/
structure TokenResponse where
  access_token : String
  token_type : String
  expires_in : Nat
  status : Option String
  message : Option String
deriving DecidableEq, Repr

/-- Behaviour of one token-endpoint request: the fetch rejects, the response
is non-2xx, or it is 2xx with a parsed JSON body. -/
inductive TokenOutcome where
  | netErr
  | httpErr (status : Nat)
  | ok (tokens : TokenResponse)
deriving DecidableEq, Repr

/-- Behaviour of one introspection request. -/
inductive IntroOutcome where
  | netErr
  | httpErr (status : Nat)
  | ok (data : UserDetails)
deriving DecidableEq, Repr

/-- The JavaScript exceptions the auth core can raise, plus `outOfFuel`
standing in for divergence of the fuelled recursion. -/
inductive JsErr where
  | netErr
  | httpTokenErr (status : Nat)
  | httpIntroErr (status : Nat)
  | incompleteTokenData
  | missingCodeVerifier
  | outOfFuel
deriving DecidableEq, Repr

/-- The complete mutable world of the auth core. -/
structure W where
  verifier : Option String
  accessToken : Option String
  expiry : Option Nat
  isLoggedIn : Bool
  userDetails : Option UserDetails
  authLoading : Bool
  urlCode : Option String
  now : Nat
  initRunning : Bool
  tokenQueue : List TokenOutcome
  introQueue : List IntroOutcome
  logoutQueue : List Bool
  tokenCalls : Nat
  introCalls : Nat
  logoutCalls : Nat
  historyReplaces : Nat
deriving DecidableEq, Repr

/-- State-plus-exception monad: JavaScript state mutations performed before a
`throw` persist, so the state is returned on both the `ok` and `error` path. -/
def M (α : Type) : Type := W → Except JsErr α × W

instance : Monad M where
  pure a := fun w => (Except.ok a, w)
  bind m k := fun w =>
    match m w with
    | (Except.ok a, w') => k a w'
    | (Except.error e, w') => (Except.error e, w')

/-- JavaScript `throw`. -/
def throwErr {α : Type} (e : JsErr) : M α := fun w => (Except.error e, w)

/-- JavaScript `try`/`catch`. -/
def tryCatch {α : Type} (body : M α) (handler : JsErr → M α) : M α := fun w =>
  match body w with
  | (Except.ok a, w') => (Except.ok a, w')
  | (Except.error e, w') => handler e w'

/-- JavaScript `try`/`finally`: the `fin` block runs on both paths. -/
def withFinally {α : Type} (body : M α) (fin : M Unit) : M α := fun w =>
  match body w with
  | (Except.ok a, w') =>
    (match fin w' with
     | (Except.ok _, w'') => (Except.ok a, w'')
     | (Except.error e, w'') => (Except.error e, w''))
  | (Except.error e, w') =>
    (match fin w' with
     | (Except.ok _, w'') => (Except.error e, w'')
     | (Except.error e2, w'') => (Except.error e2, w''))

/-! ### Primitive operations (the `storage` object, React state setters,
browser APIs and the `fetch` calls) -/

/-- `storage.get(STORAGE_KEYS.CODE_VERIFIER)`. -/
def storageGetVerifier : M (Option String) := fun w => (Except.ok w.verifier, w)

/-- `storage.getAccessToken()`. -/
def getAccessToken : M (Option String) := fun w => (Except.ok w.accessToken, w)

/-- `storage.getTokenExpiry()`. -/
def getTokenExpiry : M (Option Nat) := fun w => (Except.ok w.expiry, w)

/-- `storage.setAccessToken(token, expiresIn)` (use-auth.ts lines 44-47):
writes the token and `Date.now() + expiresIn * 1000` together. -/
def setAccessTokenOp (token : String) (expiresIn : Nat) : M Unit := fun w =>
  (Except.ok (), { w with accessToken := some token, expiry := some (w.now + expiresIn * 1000) })

/-- `storage.clearAuth()` (use-auth.ts lines 48-51): clears both fields. -/
def clearAuthOp : M Unit := fun w =>
  (Except.ok (), { w with accessToken := none, expiry := none })

/-- React `setIsLoggedIn`. -/
def setIsLoggedInOp (b : Bool) : M Unit := fun w => (Except.ok (), { w with isLoggedIn := b })

/-- React `setUserDetails`. -/
def setUserDetailsOp (u : Option UserDetails) : M Unit := fun w =>
  (Except.ok (), { w with userDetails := u })

/-- React `setAuthLoading`. -/
def setAuthLoadingOp (b : Bool) : M Unit := fun w => (Except.ok (), { w with authLoading := b })

/-- Read of the component state `isLoggedIn`. -/
def getIsLoggedIn : M Bool := fun w => (Except.ok w.isLoggedIn, w)

/-- `Date.now()` (frozen during a run). -/
def getNow : M Nat := fun w => (Except.ok w.now, w)

/-- `new URLSearchParams(window.location.search).get("code")`. -/
def getUrlCode : M (Option String) := fun w => (Except.ok w.urlCode, w)

/-- The `isInitializing` ref read. -/
def getInitRunning : M Bool := fun w => (Except.ok w.initRunning, w)

/-- The `isInitializing` ref write. -/
def setInitRunning (b : Bool) : M Unit := fun w => (Except.ok (), { w with initRunning := b })

/-- `window.history.replaceState({}, document.title, window.location.pathname)`:
drops the query string (hence the `code` parameter) without reloading. -/
def replaceHistoryStripCode : M Unit := fun w =>
  (Except.ok (), { w with urlCode := none, historyReplaces := w.historyReplaces + 1 })

/-- One `fetch` of the token endpoint: consumes the next queued outcome (an
exhausted queue acts as a network error) and counts the request. -/
def fetchTokenEndpoint : M TokenOutcome := fun w =>
  match w.tokenQueue with
  | [] => (Except.ok TokenOutcome.netErr, { w with tokenCalls := w.tokenCalls + 1 })
  | o :: rest => (Except.ok o, { w with tokenQueue := rest, tokenCalls := w.tokenCalls + 1 })

/-- One `fetch` of the introspection endpoint. -/
def fetchIntrospect : M IntroOutcome := fun w =>
  match w.introQueue with
  | [] => (Except.ok IntroOutcome.netErr, { w with introCalls := w.introCalls + 1 })
  | o :: rest => (Except.ok o, { w with introQueue := rest, introCalls := w.introCalls + 1 })

/-- One `fetch` of the logout endpoint (`true` = the fetch resolved). -/
def fetchLogout : M Bool := fun w =>
  match w.logoutQueue with
  | [] => (Except.ok false, { w with logoutCalls := w.logoutCalls + 1 })
  | o :: rest => (Except.ok o, { w with logoutQueue := rest, logoutCalls := w.logoutCalls + 1 })

/-! ### JavaScript truthiness helpers -/

/-- Truthiness of `string | null` (`null`, `undefined` and `""` are falsy). -/
def truthyOptStr : Option String → Bool
  | none => false
  | some s => !s.isEmpty

/-- Truthiness of `number | null` (`null`, `undefined` and `0` are falsy). -/
def truthyOptNat : Option Nat → Bool
  | none => false
  | some n => n != 0

/-- Falsiness of the optional `status` field (`!tokens.status`). -/
def statusFalsy : Option String → Bool
  | none => true
  | some s => s.isEmpty

/-! ## The `api` object -/

/-- Embedding of `api.validateToken` (use-auth.ts lines 93-112): POST the
token (or its extracted `jti`) to the introspection endpoint; throw on a
rejected fetch or a non-2xx response, otherwise return the parsed body.  The
request body does not influence the queued response, so the argument is
recorded only for fidelity of the call sites. -/
def validateToken (_tok : Json) : M UserDetails := do
  let o ← fetchIntrospect
  match o with
  | IntroOutcome.netErr => throwErr JsErr.netErr
  | IntroOutcome.httpErr s => throwErr (JsErr.httpIntroErr s)
  | IntroOutcome.ok data => pure data

/-- Embedding of `api.exchangeToken` (use-auth.ts lines 114-134): POST to the
token endpoint; throw on a rejected fetch or non-2xx response; throw
`incompleteTokenData` when the body has neither an `access_token` nor a
`status`; otherwise return the body.  The grant parameters do not influence
the queued response and are omitted. -/
def exchangeToken : M TokenResponse := do
  let o ← fetchTokenEndpoint
  match o with
  | TokenOutcome.netErr => throwErr JsErr.netErr
  | TokenOutcome.httpErr s => throwErr (JsErr.httpTokenErr s)
  | TokenOutcome.ok tokens =>
    if tokens.access_token.isEmpty && statusFalsy tokens.status then
      throwErr JsErr.incompleteTokenData
    else
      pure tokens

/-! ## The `auth` state machine -/

/-- The fuelled mutually recursive pair `auth.validateAndSetUser` /
`auth.refreshToken`, built as a single structural recursion on the fuel so
that runs reduce definitionally.  The first component is `validateAndSetUser`
at the given fuel, the second `refreshToken`; fuel `0` stands for divergence
and raises `outOfFuel`.  The source-shaped bodies are recovered by the
definitional equations `validateAndSetUser_succ` / `refreshToken_succ`
below. -/
def authOps : Nat → (String → M Unit) × M Unit
  | 0 => (fun _ => throwErr JsErr.outOfFuel, throwErr JsErr.outOfFuel)
  | fuel + 1 =>
    let validatePrev := (authOps fuel).1
    let refreshPrev := (authOps fuel).2
    ( fun accessToken =>
        tryCatch
          (do
            let loggedIn ← getIsLoggedIn
            let stored ← getAccessToken
            if loggedIn && (stored == some accessToken) then
              pure ()
            else
              match extractJwtId accessToken with
              | none => do
                let data ← validateToken (Json.str accessToken)
                if data.active then do
                  setUserDetailsOp (some data)
                  setIsLoggedInOp true
                else
                  refreshPrev
              | some tokenId => do
                let data ← validateToken tokenId
                if data.active then do
                  setUserDetailsOp (some data)
                  setIsLoggedInOp true
                else
                  refreshPrev)
          (fun _e =>
            tryCatch refreshPrev
              (fun refreshErr => do
                clearAuthOp
                setIsLoggedInOp false
                setUserDetailsOp none
                throwErr refreshErr)),
      tryCatch
        (do
          let tokens ← exchangeToken
          if tokens.status == some "auth_required" then do
            setIsLoggedInOp false
            setUserDetailsOp none
          else do
            setAccessTokenOp tokens.access_token
              (if tokens.expires_in = 0 then 3600 else tokens.expires_in)
            validatePrev tokens.access_token)
        (fun _err => do
          clearAuthOp
          setIsLoggedInOp false
          setUserDetailsOp none))

/-- Embedding of `auth.validateAndSetUser` (use-auth.ts lines 138-174).
Short-circuit when already logged in with the same stored token; otherwise
introspect by extracted `jti` when available, else by the raw token; an
active result settles Authenticated; an inactive result falls through to
`refreshToken`; on any thrown error the catch retries `refreshToken`, and
only if that also throws clears the token state, settles Unauthenticated and
rethrows. -/
def validateAndSetUser (fuel : Nat) (accessToken : String) : M Unit :=
  (authOps fuel).1 accessToken

/-- Embedding of `auth.refreshToken` (use-auth.ts lines 196-216): run the
refresh body; any thrown error clears the token record and settles
Unauthenticated. -/
def refreshToken (fuel : Nat) : M Unit := (authOps fuel).2

/-- The `try` body of `auth.validateAndSetUser`. -/
def validateBody (fuel : Nat) (accessToken : String) : M Unit := do
  let loggedIn ← getIsLoggedIn
  let stored ← getAccessToken
  if loggedIn && (stored == some accessToken) then
    pure ()
  else
    match extractJwtId accessToken with
    | none => do
      let data ← validateToken (Json.str accessToken)
      if data.active then do
        setUserDetailsOp (some data)
        setIsLoggedInOp true
      else
        refreshToken fuel
    | some tokenId => do
      let data ← validateToken tokenId
      if data.active then do
        setUserDetailsOp (some data)
        setIsLoggedInOp true
      else
        refreshToken fuel

/-- The `catch` handler of `auth.validateAndSetUser` (use-auth.ts lines
164-173): retry `refreshToken`; if that also throws, clear the token state,
settle Unauthenticated and rethrow. -/
def validateCatch (fuel : Nat) : JsErr → M Unit := fun _e =>
  tryCatch (refreshToken fuel)
    (fun refreshErr => do
      clearAuthOp
      setIsLoggedInOp false
      setUserDetailsOp none
      throwErr refreshErr)

/-- The `try` body of `auth.refreshToken` (use-auth.ts lines 197-210): the
response object is never null here, so the source's `!tokens ||` disjunct
reduces to the `status` comparison. -/
def refreshBody (fuel : Nat) : M Unit := do
  let tokens ← exchangeToken
  if tokens.status == some "auth_required" then do
    setIsLoggedInOp false
    setUserDetailsOp none
  else do
    setAccessTokenOp tokens.access_token
      (if tokens.expires_in = 0 then 3600 else tokens.expires_in)
    validateAndSetUser fuel tokens.access_token

/-- The `catch` handler of `auth.refreshToken` (use-auth.ts lines 211-215). -/
def refreshCatch : JsErr → M Unit := fun _err => do
  clearAuthOp
  setIsLoggedInOp false
  setUserDetailsOp none

theorem validateAndSetUser_zero (t : String) :
    validateAndSetUser 0 t = throwErr JsErr.outOfFuel := rfl

theorem validateAndSetUser_succ (fuel : Nat) (t : String) :
    validateAndSetUser (fuel + 1) t =
      tryCatch (validateBody fuel t) (validateCatch fuel) := rfl

theorem refreshToken_zero : refreshToken 0 = throwErr JsErr.outOfFuel := rfl

theorem refreshToken_succ (fuel : Nat) :
    refreshToken (fuel + 1) = tryCatch (refreshBody fuel) refreshCatch := rfl

/-- Embedding of `auth.exchangeCodeForToken` (use-auth.ts lines 176-194):
require a truthy persisted verifier, throwing `missingCodeVerifier` before
any network activity when it is absent; then exchange the code, store the
token (`expires_in` defaulting to 3600 when falsy) and validate it, with the
whole exchange swallowed by an empty catch. -/
def exchangeCodeForToken (fuel : Nat) (_code : String) : M Unit := do
  let codeVerifier ← storageGetVerifier
  if !truthyOptStr codeVerifier then
    throwErr JsErr.missingCodeVerifier
  else
    tryCatch
      (do
        let tokens ← exchangeToken
        setAccessTokenOp tokens.access_token
          (if tokens.expires_in = 0 then 3600 else tokens.expires_in)
        validateAndSetUser fuel tokens.access_token)
      (fun _e => pure ())

/-- The `try` body of `auth.initialize` (use-auth.ts lines 219-240): a
memory-held unexpired token is validated; else a `code` query parameter is
exchanged and then stripped from the URL; else a refresh is attempted with a
local catch settling Unauthenticated. -/
def initSessionBody (fuel : Nat) : M Unit := do
  let accessToken ← getAccessToken
  let tokenExpiry ← getTokenExpiry
  let now ← getNow
  if truthyOptStr accessToken && truthyOptNat tokenExpiry
      && decide (now < tokenExpiry.getD 0) then
    validateAndSetUser fuel (accessToken.getD "")
  else do
    let code ← getUrlCode
    if truthyOptStr code then do
      exchangeCodeForToken fuel (code.getD "")
      replaceHistoryStripCode
    else
      tryCatch (refreshToken fuel)
        (fun _e => do
          setIsLoggedInOp false
          setUserDetailsOp none)

/-- Embedding of `auth.initialize` (use-auth.ts lines 218-245): the body runs
under a catch-all that settles Unauthenticated. -/
def initializeSession (fuel : Nat) : M Unit :=
  tryCatch (initSessionBody fuel)
    (fun _e => do
      setIsLoggedInOp false
      setUserDetailsOp none)

/-- The awaited logout fetch: a rejected fetch throws. -/
def logoutFetch : M Unit := do
  let resolved ← fetchLogout
  if resolved then pure () else throwErr JsErr.netErr

/-- Embedding of `logout` (use-auth.ts lines 266-277): best-effort POST with
errors ignored; the `finally` block unconditionally clears the token record
and settles Unauthenticated. -/
def logout : M Unit :=
  withFinally (tryCatch logoutFetch (fun _e => pure ()))
    (do
      clearAuthOp
      setIsLoggedInOp false
      setUserDetailsOp none)

/-- Embedding of the initialization effect (use-auth.ts lines 281-290): the
single-flight `isInitializing` guard, `setAuthLoading(true)`, the
`initialize()` run, and the `finally` that resolves `authLoading` and
releases the guard. -/
def useAuthInitEffect (fuel : Nat) : M Unit := do
  let running ← getInitRunning
  if running then pure ()
  else do
    setInitRunning true
    setAuthLoadingOp true
    withFinally (initializeSession fuel)
      (do
        setAuthLoadingOp false
        setInitRunning false)

/-! ## Running lemmas for the monad -/

@[simp] theorem bind_apply {α β : Type} (m : M α) (k : α → M β) (w : W) :
    (m >>= k) w =
      match m w with
      | (Except.ok a, w') => k a w'
      | (Except.error e, w') => (Except.error e, w') := rfl

@[simp] theorem pure_apply {α : Type} (a : α) (w : W) :
    (pure a : M α) w = (Except.ok a, w) := rfl

@[simp] theorem throwErr_apply {α : Type} (e : JsErr) (w : W) :
    (throwErr e : M α) w = (Except.error e, w) := rfl

theorem tryCatch_apply {α : Type} (body : M α) (handler : JsErr → M α) (w : W) :
    tryCatch body handler w =
      match body w with
      | (Except.ok a, w') => (Except.ok a, w')
      | (Except.error e, w') => handler e w' := rfl

/-! ## Error-freedom lemmas

The catch-all handlers of `refreshToken` and of `initializeSession` cannot
themselves fail, so neither operation can reject. -/

/-- A `Unit`-valued operation that always succeeds. -/
def OkRun (m : M Unit) : Prop := ∀ w, (m w).1 = Except.ok ()

theorem okRun_tryCatch_of_handler {m : M Unit} {h : JsErr → M Unit}
    (hh : ∀ e, OkRun (h e)) : OkRun (tryCatch m h) := by
  intro w
  rw [tryCatch_apply]
  rcases hmw : m w with ⟨r, w'⟩
  cases r with
  | ok a => cases a; rfl
  | error e => exact hh e w'

theorem okRun_tryCatch_of_body {m : M Unit} {h : JsErr → M Unit}
    (hm : OkRun m) : OkRun (tryCatch m h) := by
  intro w
  rw [tryCatch_apply]
  rcases hmw : m w with ⟨r, w'⟩
  have := hm w
  rw [hmw] at this
  simp only at this
  subst this
  rfl

/-- The catch handler of `refreshToken` cannot fail, so `refreshToken` (with
fuel to enter its body) always resolves. -/
theorem refreshToken_runs_ok : ∀ f, OkRun (refreshToken (f + 1)) := by
  intro f
  show OkRun (tryCatch _ _)
  apply okRun_tryCatch_of_handler
  intro e w
  rfl

/-- With fuel for one nested refresh, `validateAndSetUser` always resolves:
its catch handler runs `refreshToken`, which cannot fail, so the
clear-and-rethrow branch is never taken. -/
theorem validateAndSetUser_runs_ok : ∀ f t, OkRun (validateAndSetUser (f + 2) t) := by
  intro f t
  show OkRun (tryCatch _ _)
  apply okRun_tryCatch_of_handler
  intro e
  exact okRun_tryCatch_of_body (refreshToken_runs_ok f)

/-! ## The token/expiry pairing invariant -/

/-- The invariant of the in-memory token record: the access token and its
expiry instant are present or absent together. -/
def TokenInv (w : W) : Prop := (w.accessToken = none ↔ w.expiry = none)

/-- An operation preserves a state predicate. -/
def Preserves (P : W → Prop) {α : Type} (m : M α) : Prop :=
  ∀ w, P w → P (m w).2

theorem preserves_pure {P : W → Prop} {α : Type} (a : α) :
    Preserves P (pure a : M α) := fun _ h => h

theorem preserves_throw {P : W → Prop} {α : Type} (e : JsErr) :
    Preserves P (throwErr e : M α) := fun _ h => h

theorem preserves_bind {P : W → Prop} {α β : Type} {m : M α} {k : α → M β}
    (hm : Preserves P m) (hk : ∀ a, Preserves P (k a)) :
    Preserves P (m >>= k) := by
  intro w hw
  have h1 := hm w hw
  rw [bind_apply]
  rcases hmw : m w with ⟨r, w'⟩
  rw [hmw] at h1
  cases r with
  | ok a => exact hk a w' h1
  | error e => exact h1

theorem preserves_tryCatch {P : W → Prop} {α : Type} {m : M α}
    {h : JsErr → M α} (hm : Preserves P m) (hh : ∀ e, Preserves P (h e)) :
    Preserves P (tryCatch m h) := by
  intro w hw
  have h1 := hm w hw
  rw [tryCatch_apply]
  rcases hmw : m w with ⟨r, w'⟩
  rw [hmw] at h1
  cases r with
  | ok a => exact h1
  | error e => exact hh e w' h1

theorem preserves_withFinally {P : W → Prop} {α : Type} {m : M α}
    {fin : M Unit} (hm : Preserves P m) (hf : Preserves P fin) :
    Preserves P (withFinally m fin) := by
  intro w hw
  have h1 := hm w hw
  unfold withFinally
  rcases hmw : m w with ⟨r, w'⟩
  rw [hmw] at h1
  have h2 := hf w' h1
  rcases hfw : fin w' with ⟨r2, w''⟩
  rw [hfw] at h2
  cases r <;> cases r2 <;> simp only [hfw] <;> exact h2

theorem preserves_iteB {P : W → Prop} {α : Type} (b : Bool) {m1 m2 : M α}
    (h1 : Preserves P m1) (h2 : Preserves P m2) :
    Preserves P (if b then m1 else m2) := by
  cases b
  · simpa using h2
  · simpa using h1

/-! Primitive operations and the invariant. -/

theorem tokenInv_setAccessToken (t : String) (e : Nat) :
    Preserves TokenInv (setAccessTokenOp t e) := by
  intro w _
  simp [setAccessTokenOp, TokenInv]

theorem tokenInv_clearAuth : Preserves TokenInv clearAuthOp := by
  intro w _
  simp [clearAuthOp, TokenInv]

theorem tokenInv_storageGetVerifier : Preserves TokenInv storageGetVerifier :=
  fun _ h => h

theorem tokenInv_getAccessToken : Preserves TokenInv getAccessToken :=
  fun _ h => h

theorem tokenInv_getTokenExpiry : Preserves TokenInv getTokenExpiry :=
  fun _ h => h

theorem tokenInv_getIsLoggedIn : Preserves TokenInv getIsLoggedIn :=
  fun _ h => h

theorem tokenInv_getNow : Preserves TokenInv getNow := fun _ h => h

theorem tokenInv_getUrlCode : Preserves TokenInv getUrlCode := fun _ h => h

theorem tokenInv_getInitRunning : Preserves TokenInv getInitRunning :=
  fun _ h => h

theorem tokenInv_setIsLoggedIn (b : Bool) :
    Preserves TokenInv (setIsLoggedInOp b) := fun _ h => h

theorem tokenInv_setUserDetails (u : Option UserDetails) :
    Preserves TokenInv (setUserDetailsOp u) := fun _ h => h

theorem tokenInv_setAuthLoading (b : Bool) :
    Preserves TokenInv (setAuthLoadingOp b) := fun _ h => h

theorem tokenInv_setInitRunning (b : Bool) :
    Preserves TokenInv (setInitRunning b) := fun _ h => h

theorem tokenInv_replaceHistory : Preserves TokenInv replaceHistoryStripCode :=
  fun _ h => h

theorem tokenInv_fetchToken : Preserves TokenInv fetchTokenEndpoint := by
  intro w h
  unfold fetchTokenEndpoint
  cases w.tokenQueue <;> exact h

theorem tokenInv_fetchIntrospect : Preserves TokenInv fetchIntrospect := by
  intro w h
  unfold fetchIntrospect
  cases w.introQueue <;> exact h

theorem tokenInv_fetchLogout : Preserves TokenInv fetchLogout := by
  intro w h
  unfold fetchLogout
  cases w.logoutQueue <;> exact h

theorem tokenInv_validateToken (tok : Json) :
    Preserves TokenInv (validateToken tok) := by
  apply preserves_bind tokenInv_fetchIntrospect
  intro o
  cases o <;> first
    | exact preserves_throw _
    | exact preserves_pure _

theorem tokenInv_exchangeToken : Preserves TokenInv exchangeToken := by
  apply preserves_bind tokenInv_fetchToken
  intro o
  cases o with
  | netErr => exact preserves_throw _
  | httpErr s => exact preserves_throw _
  | ok tokens =>
    exact preserves_iteB _ (preserves_throw _) (preserves_pure _)

theorem tokenInv_validateBody {f : Nat}
    (hR : Preserves TokenInv (refreshToken f)) (t : String) :
    Preserves TokenInv (validateBody f t) := by
  unfold validateBody
  apply preserves_bind tokenInv_getIsLoggedIn
  intro loggedIn
  apply preserves_bind tokenInv_getAccessToken
  intro stored
  apply preserves_iteB
  · exact preserves_pure _
  · cases extractJwtId t <;>
    · apply preserves_bind (tokenInv_validateToken _)
      intro data
      apply preserves_iteB
      · exact preserves_bind (tokenInv_setUserDetails _)
          fun _ => tokenInv_setIsLoggedIn _
      · exact hR

theorem tokenInv_validateCatch {f : Nat}
    (hR : Preserves TokenInv (refreshToken f)) (e : JsErr) :
    Preserves TokenInv (validateCatch f e) := by
  unfold validateCatch
  apply preserves_tryCatch hR
  intro e2
  apply preserves_bind tokenInv_clearAuth
  intro _
  apply preserves_bind (tokenInv_setIsLoggedIn _)
  intro _
  apply preserves_bind (tokenInv_setUserDetails _)
  intro _
  exact preserves_throw _

theorem tokenInv_refreshBody {f : Nat}
    (hV : ∀ t, Preserves TokenInv (validateAndSetUser f t)) :
    Preserves TokenInv (refreshBody f) := by
  unfold refreshBody
  apply preserves_bind tokenInv_exchangeToken
  intro tokens
  apply preserves_iteB
  · exact preserves_bind (tokenInv_setIsLoggedIn _)
      fun _ => tokenInv_setUserDetails _
  · apply preserves_bind (tokenInv_setAccessToken _ _)
    intro _
    exact hV _

theorem tokenInv_refreshCatch (e : JsErr) :
    Preserves TokenInv (refreshCatch e) := by
  unfold refreshCatch
  apply preserves_bind tokenInv_clearAuth
  intro _
  apply preserves_bind (tokenInv_setIsLoggedIn _)
  intro _
  exact tokenInv_setUserDetails _

/-- The mutually recursive pair preserves the token/expiry pairing invariant
at every fuel. -/
theorem tokenInv_auth : ∀ f,
    (∀ t, Preserves TokenInv (validateAndSetUser f t))
    ∧ Preserves TokenInv (refreshToken f) := by
  intro f
  induction f with
  | zero => exact ⟨fun _ _ h => h, fun _ h => h⟩
  | succ f ih =>
    constructor
    · intro t
      rw [validateAndSetUser_succ]
      exact preserves_tryCatch (tokenInv_validateBody ih.2 t)
        (tokenInv_validateCatch ih.2)
    · rw [refreshToken_succ]
      exact preserves_tryCatch (tokenInv_refreshBody ih.1) tokenInv_refreshCatch

theorem tokenInv_exchangeCode (f : Nat) (c : String) :
    Preserves TokenInv (exchangeCodeForToken f c) := by
  unfold exchangeCodeForToken
  apply preserves_bind tokenInv_storageGetVerifier
  intro codeVerifier
  apply preserves_iteB
  · exact preserves_throw _
  · apply preserves_tryCatch
    · apply preserves_bind tokenInv_exchangeToken
      intro tokens
      apply preserves_bind (tokenInv_setAccessToken _ _)
      intro _
      exact (tokenInv_auth f).1 _
    · intro _
      exact preserves_pure _

theorem tokenInv_initBody (f : Nat) :
    Preserves TokenInv (initSessionBody f) := by
  unfold initSessionBody
  apply preserves_bind tokenInv_getAccessToken
  intro accessToken
  apply preserves_bind tokenInv_getTokenExpiry
  intro tokenExpiry
  apply preserves_bind tokenInv_getNow
  intro now
  apply preserves_iteB
  · exact (tokenInv_auth f).1 _
  · apply preserves_bind tokenInv_getUrlCode
    intro code
    apply preserves_iteB
    · apply preserves_bind (tokenInv_exchangeCode f _)
      intro _
      exact tokenInv_replaceHistory
    · apply preserves_tryCatch (tokenInv_auth f).2
      intro _
      exact preserves_bind (tokenInv_setIsLoggedIn _)
        fun _ => tokenInv_setUserDetails _

theorem tokenInv_initSession (f : Nat) :
    Preserves TokenInv (initializeSession f) := by
  unfold initializeSession
  apply preserves_tryCatch (tokenInv_initBody f)
  intro _
  exact preserves_bind (tokenInv_setIsLoggedIn _)
    fun _ => tokenInv_setUserDetails _

theorem tokenInv_logout : Preserves TokenInv logout := by
  unfold logout
  apply preserves_withFinally
  · apply preserves_tryCatch
    · unfold logoutFetch
      apply preserves_bind tokenInv_fetchLogout
      intro resolved
      exact preserves_iteB _ (preserves_pure _) (preserves_throw _)
    · intro _
      exact preserves_pure _
  · apply preserves_bind tokenInv_clearAuth
    intro _
    exact preserves_bind (tokenInv_setIsLoggedIn _)
      fun _ => tokenInv_setUserDetails _

/-! ## Facts about `generateRandomString` -/

theorem foldl_append_data (l : List String) (init : String) :
    (l.foldl (· ++ ·) init).data = init.data ++ (l.map String.data).flatten := by
  induction l generalizing init with
  | nil => simp
  | cons x xs ih => simp [ih, String.data_append]

theorem join_data (l : List String) :
    (String.join l).data = (l.map String.data).flatten := by
  have h : String.join l = l.foldl (· ++ ·) "" := rfl
  rw [h, foldl_append_data]
  rfl

/-- Every in-range `charAt` of the charset is a single character that is a
lowercase letter or a digit and belongs to the charset. -/
theorem charAt_oauthCharset : ∀ i : Fin 36,
    (jsCharAt oauthCharset i.val).data.length = 1
    ∧ ∀ c ∈ (jsCharAt oauthCharset i.val).data,
        (('a' ≤ c ∧ c ≤ 'z') ∨ ('0' ≤ c ∧ c ≤ '9')) ∧ c ∈ oauthCharset.data := by
  decide

/-! ## Scenario states -/

/-- Freshly mounted provider: nothing stored, no pending responses. -/
def wBase : W := {
  verifier := none
  accessToken := none
  expiry := none
  isLoggedIn := false
  userDetails := none
  authLoading := false
  urlCode := none
  now := 1000
  initRunning := false
  tokenQueue := []
  introQueue := []
  logoutQueue := []
  tokenCalls := 0
  introCalls := 0
  logoutCalls := 0
  historyReplaces := 0 }

/-- Scenario A: no stored token, no `code` parameter, the refresh call
answers HTTP 401. -/
def wScenA : W :=
  { wBase with authLoading := true, tokenQueue := [TokenOutcome.httpErr 401] }

/-- Scenario B token-endpoint response. -/
def scenBToken : TokenResponse :=
  { access_token := "tok1"
    token_type := "Bearer"
    expires_in := 3600
    status := none
    message := none }

/-- Scenario B introspection response. -/
def scenBUser : UserDetails :=
  { active := true, client_id := "c1", sub := "u1", email := "a@b.com" }

/-- Scenario B: URL carries `?code=abc123`, verifier `"xyz"` persisted, both
endpoints answer successfully. -/
def wScenB : W :=
  { wBase with
    verifier := some "xyz"
    urlCode := some "abc123"
    tokenQueue := [TokenOutcome.ok scenBToken]
    introQueue := [IntroOutcome.ok scenBUser] }

/-- State with a `code` in the URL but no persisted verifier. -/
def wMissVer : W := { wBase with urlCode := some "c" }

/-- An introspection response reporting the token inactive. -/
def inactiveUser : UserDetails :=
  { active := false, client_id := "c1", sub := "u1", email := "e@e" }

/-- State whose next introspection response reports the token inactive. -/
def wInactive : W := { wBase with introQueue := [IntroOutcome.ok inactiveUser] }

/-- Already-authenticated state holding token `"tk"`. -/
def wAuthed : W :=
  { wBase with isLoggedIn := true, accessToken := some "tk", expiry := some 999999 }

/-- Clearing of the token record together with the Unauthenticated settling,
as performed by the error paths of the state machine. -/
def clearSettle (w : W) : W :=
  { w with accessToken := none, expiry := none, isLoggedIn := false, userDetails := none }

/-- Effect of `storage.setAccessToken(tokens.access_token, tokens.expires_in
|| 3600)` on the state. -/
def storeTokens (t : TokenResponse) (w : W) : W :=
  { w with
    accessToken := some t.access_token
    expiry := some (w.now + (if t.expires_in = 0 then 3600 else t.expires_in) * 1000) }

/-! ## Claims C1, C2 -/

/-- C1: every run of `initialize()` resolves (never propagates an exception),
any exception thrown by its body settles the session as Unauthenticated
(`isLoggedIn = false`, `userDetails = none`), and in Scenario A (no stored
token, no `code` parameter, refresh answering HTTP 401) the state after the
initialization effect is `{isLoggedIn: false, userDetails: null, authLoading:
false}`. -/
theorem C1_init_settles_unauthenticated :
    (∀ f w, (initializeSession f w).1 = Except.ok ())
    ∧ (∀ f w e w1, initSessionBody f w = (Except.error e, w1) →
        initializeSession f w
          = (Except.ok (), { w1 with isLoggedIn := false, userDetails := none }))
    ∧ (∀ f, (useAuthInitEffect f wScenA).2.isLoggedIn = false
        ∧ (useAuthInitEffect f wScenA).2.userDetails = none
        ∧ (useAuthInitEffect f wScenA).2.authLoading = false) := by
  refine ⟨?_, ?_, ?_⟩
  · intro f w
    have h : OkRun (initializeSession f) := by
      unfold initializeSession
      apply okRun_tryCatch_of_handler
      intro e w'
      rfl
    exact h w
  · intro f w e w1 h
    unfold initializeSession
    rw [tryCatch_apply, h]
    rfl
  · intro f
    cases f <;> exact ⟨rfl, rfl, rfl⟩

theorem C1_witness :
    initializeSession 1 wMissVer
      = (Except.ok (), { wMissVer with isLoggedIn := false, userDetails := none }) :=
  C1_init_settles_unauthenticated.2.1 1 wMissVer JsErr.missingCodeVerifier wMissVer rfl

/-- C2: in Scenario B (no in-memory token, `?code=abc123` in the URL,
persisted verifier `"xyz"`, token endpoint answering
`{access_token: "tok1", expires_in: 3600}` and introspection answering
`{active: true, email: "a@b.com", sub: "u1", client_id: "c1"}`), after
`initialize()` resolves the state is Authenticated with
`userDetails.email = "a@b.com"` and the `code` parameter has been removed by
one history replacement. -/
theorem C2_code_exchange_scenario :
    (initializeSession 2 wScenB).1 = Except.ok ()
    ∧ (initializeSession 2 wScenB).2.isLoggedIn = true
    ∧ (initializeSession 2 wScenB).2.userDetails.map UserDetails.email = some "a@b.com"
    ∧ (initializeSession 2 wScenB).2.urlCode = none
    ∧ (initializeSession 2 wScenB).2.historyReplaces = wScenB.historyReplaces + 1 :=
  ⟨rfl, rfl, rfl, rfl, rfl⟩

/-! ## Claims C5, C6, C7 -/

/-- C5: calling `exchangeCodeForToken` with no persisted code verifier throws
the missing-code-verifier error, leaves the state untouched, and performs
zero network calls (neither endpoint's request counter moves). -/
theorem C5_missing_verifier : ∀ f c w, w.verifier = none →
    exchangeCodeForToken f c w = (Except.error JsErr.missingCodeVerifier, w)
    ∧ (exchangeCodeForToken f c w).2.tokenCalls = w.tokenCalls
    ∧ (exchangeCodeForToken f c w).2.introCalls = w.introCalls := by
  intro f c w h
  have hmain : exchangeCodeForToken f c w = (Except.error JsErr.missingCodeVerifier, w) := by
    unfold exchangeCodeForToken
    rw [bind_apply]
    simp only [storageGetVerifier, h, truthyOptStr, Bool.not_false, if_pos, throwErr_apply]
  exact ⟨hmain, by rw [hmain], by rw [hmain]⟩

theorem C5_witness :
    exchangeCodeForToken 1 "abc" wBase = (Except.error JsErr.missingCodeVerifier, wBase) :=
  (C5_missing_verifier 1 "abc" wBase rfl).1

/-- C6: when the session is already Authenticated and the stored token equals
the argument, `validateAndSetUser` returns immediately with the state
untouched; in particular the introspection counter does not move, so a second
call with the identical already-authenticated token issues zero introspection
requests. -/
theorem C6_short_circuit : ∀ f t w,
    w.isLoggedIn = true → w.accessToken = some t →
    validateAndSetUser (f + 1) t w = (Except.ok (), w)
    ∧ (validateAndSetUser (f + 1) t w).2.introCalls = w.introCalls := by
  intro f t w h1 h2
  have hmain : validateAndSetUser (f + 1) t w = (Except.ok (), w) := by
    rw [validateAndSetUser_succ, tryCatch_apply]
    unfold validateBody
    rw [bind_apply]
    simp only [getIsLoggedIn, h1, bind_apply, getAccessToken, h2, beq_self_eq_true,
      Bool.and_true, if_pos, pure_apply]
  exact ⟨hmain, by rw [hmain]⟩

theorem C6_witness : validateAndSetUser 1 "tk" wAuthed = (Except.ok (), wAuthed) :=
  (C6_short_circuit 0 "tk" wAuthed rfl rfl).1

/-- C7: starting from any state in which the access token and its expiry are
present or absent together, every operation of the auth core —
`setAccessToken`, `clearAuth`, `initialize`, `exchangeCodeForToken`,
`refreshToken`, `validateAndSetUser` and `logout` — yields a state in which
they are again present or absent together; the two primitive writers set and
clear both fields in one step. -/
theorem C7_token_expiry_invariant : ∀ w, TokenInv w →
    (∀ t e, TokenInv ((setAccessTokenOp t e w).2))
    ∧ TokenInv ((clearAuthOp w).2)
    ∧ (∀ f, TokenInv ((initializeSession f w).2))
    ∧ (∀ f c, TokenInv ((exchangeCodeForToken f c w).2))
    ∧ (∀ f, TokenInv ((refreshToken f w).2))
    ∧ (∀ f t, TokenInv ((validateAndSetUser f t w).2))
    ∧ TokenInv ((logout w).2) := by
  intro w h
  exact ⟨fun t e => tokenInv_setAccessToken t e w h,
    tokenInv_clearAuth w h,
    fun f => tokenInv_initSession f w h,
    fun f c => tokenInv_exchangeCode f c w h,
    fun f => (tokenInv_auth f).2 w h,
    fun f t => (tokenInv_auth f).1 t w h,
    tokenInv_logout w h⟩

theorem C7_witness : TokenInv ((setAccessTokenOp "t" 60 wBase).2) :=
  (C7_token_expiry_invariant wBase ⟨fun _ => rfl, fun _ => rfl⟩).1 "t" 60

/-! ## Claim C8 -/

/-- C8 counterexample: the claim says `extractJwtId` returns `null` whenever
the token does not contain exactly two dots, but on the four-segment token
`"h.eyJqdGkiOiJ4In0.s.t"` (three dots; its second segment is the base64 of a
JSON object with `jti` `"x"`) the function returns a non-null id. -/
theorem C8_counterexample :
    ("h.eyJqdGkiOiJ4In0.s.t".data.count '.' ≠ 2)
    ∧ (extractJwtId "h.eyJqdGkiOiJ4In0.s.t").isSome = true :=
  ⟨by decide, rfl⟩

/-- C8 (amended): `extractJwtId` is total (never throws) and returns `null`
whenever the dot-split of the token has no second segment, or that segment is
empty, fails base64 decoding, or does not decode to well-formed JSON — but it
inspects only the second dot-separated segment, so a token with a dot count
other than two may still yield a non-null id; in particular
`extractJwtId "not.a.jwt.token"` and `extractJwtId "plainstring"` both return
`null`. -/
theorem C8_extract_jwt_id_amended : ∀ s : String,
    ((jsSplitDot s.data).get? 1 = none → extractJwtId s = none)
    ∧ (∀ seg, (jsSplitDot s.data).get? 1 = some seg → seg.isEmpty = true →
        extractJwtId s = none)
    ∧ (∀ seg, (jsSplitDot s.data).get? 1 = some seg → atob seg = none →
        extractJwtId s = none)
    ∧ (∀ seg dec, (jsSplitDot s.data).get? 1 = some seg → atob seg = some dec →
        jsonParse dec = none → extractJwtId s = none)
    ∧ extractJwtId "not.a.jwt.token" = none
    ∧ extractJwtId "plainstring" = none := by
  intro s
  refine ⟨?_, ?_, ?_, ?_, rfl, rfl⟩
  · intro h
    unfold extractJwtId
    rw [h]
  · intro seg h1 h2
    unfold extractJwtId
    rw [h1]
    simp [h2]
  · intro seg h1 h2
    unfold extractJwtId
    rw [h1]
    simp [h2]
  · intro seg dec h1 h2 h3
    unfold extractJwtId
    rw [h1]
    simp [h2, h3]

theorem C8_witness : extractJwtId "plainstring" = none :=
  (C8_extract_jwt_id_amended "plainstring").1 rfl

/-! ## Claim C10 -/

/-- C10 (implicit): `refreshToken` never rejects — its whole body runs under
a catch-all whose handler only performs state writes — and consequently
`validateAndSetUser` (whose only rethrow is guarded by a failing refresh)
never rejects either, for every state and every queued endpoint behaviour:
the clear-and-rethrow branch is unreachable. -/
theorem C10_refresh_never_throws :
    (∀ f w, (refreshToken (f + 1) w).1 = Except.ok ())
    ∧ (∀ f t w, (validateAndSetUser (f + 2) t w).1 = Except.ok ()) :=
  ⟨fun f w => refreshToken_runs_ok f w,
   fun f t w => validateAndSetUser_runs_ok f t w⟩

/-! ## Claims C3, C4 -/

theorem fetchToken_eq {w : W} {o : TokenOutcome} {rest : List TokenOutcome}
    (hq : w.tokenQueue = o :: rest) :
    fetchTokenEndpoint w
      = (Except.ok o, { w with tokenQueue := rest, tokenCalls := w.tokenCalls + 1 }) := by
  unfold fetchTokenEndpoint
  rw [hq]

theorem fetchIntrospect_eq {w : W} {o : IntroOutcome} {rest : List IntroOutcome}
    (hq : w.introQueue = o :: rest) :
    fetchIntrospect w
      = (Except.ok o, { w with introQueue := rest, introCalls := w.introCalls + 1 }) := by
  unfold fetchIntrospect
  rw [hq]

theorem exchangeToken_ok {w : W} {t : TokenResponse} {rest : List TokenOutcome}
    (hq : w.tokenQueue = TokenOutcome.ok t :: rest)
    (hinc : (t.access_token.isEmpty && statusFalsy t.status) = false) :
    exchangeToken w
      = (Except.ok t, { w with tokenQueue := rest, tokenCalls := w.tokenCalls + 1 }) := by
  unfold exchangeToken
  rw [bind_apply, fetchToken_eq hq]
  simp [hinc]

/-- C3: for every run of `refreshToken` with fuel to enter its body:
a token-endpoint response with status `auth_required` settles Unauthenticated
without raising an error and without touching the token record; if the body
throws at any step, the run clears the in-memory token record, settles
Unauthenticated and still resolves; and any other successful response is
stored (token and computed expiry together, `expires_in` defaulting to 3600
when falsy) and handed to `validateAndSetUser`. -/
theorem C3_refresh_token_behavior : ∀ f w,
    (∀ t rest, w.tokenQueue = TokenOutcome.ok t :: rest →
       t.status = some "auth_required" →
       refreshToken (f + 1) w
         = (Except.ok (), { w with
             tokenQueue := rest
             tokenCalls := w.tokenCalls + 1
             isLoggedIn := false
             userDetails := none }))
    ∧ (∀ e w1, refreshBody f w = (Except.error e, w1) →
       refreshToken (f + 1) w = (Except.ok (), clearSettle w1))
    ∧ (∀ t rest, w.tokenQueue = TokenOutcome.ok t :: rest →
       (t.access_token.isEmpty && statusFalsy t.status) = false →
       (t.status == some "auth_required") = false →
       refreshToken (f + 1) w
         = match validateAndSetUser f t.access_token
             (storeTokens t { w with tokenQueue := rest, tokenCalls := w.tokenCalls + 1 }) with
           | (Except.ok _, w2) => (Except.ok (), w2)
           | (Except.error _, w2) => (Except.ok (), clearSettle w2)) := by
  intro f w
  refine ⟨?_, ?_, ?_⟩
  · intro t rest hq hst
    have hsf : statusFalsy t.status = false := by rw [hst]; rfl
    have hinc : (t.access_token.isEmpty && statusFalsy t.status) = false := by
      simp [hsf]
    rw [refreshToken_succ, tryCatch_apply]
    unfold refreshBody
    rw [bind_apply, exchangeToken_ok hq hinc]
    simp only [hst, beq_self_eq_true, if_true]
    rfl
  · intro e w1 h
    rw [refreshToken_succ, tryCatch_apply, h]
    rfl
  · intro t rest hq hinc hst
    rw [refreshToken_succ, tryCatch_apply]
    unfold refreshBody
    rw [bind_apply, exchangeToken_ok hq hinc]
    simp only [hst, Bool.false_eq_true, if_false, bind_apply, setAccessTokenOp]
    rcases hv : validateAndSetUser f t.access_token
        (storeTokens t { w with tokenQueue := rest, tokenCalls := w.tokenCalls + 1 })
      with ⟨r, w2⟩
    unfold storeTokens at hv
    simp only [hv]
    cases r with
    | ok a => cases a; rfl
    | error e => rfl

/-- Token response signalling `auth_required`. -/
def arToken : TokenResponse :=
  { access_token := ""
    token_type := ""
    expires_in := 0
    status := some "auth_required"
    message := none }

/-- State whose next token-endpoint response signals `auth_required`. -/
def wAuthReq : W := { wBase with tokenQueue := [TokenOutcome.ok arToken] }

theorem C3_witness :
    refreshToken 1 wAuthReq
      = (Except.ok (), { wAuthReq with
          tokenQueue := []
          tokenCalls := wAuthReq.tokenCalls + 1
          isLoggedIn := false
          userDetails := none }) :=
  (C3_refresh_token_behavior 0 wAuthReq).1 arToken [] rfl rfl

/-- C4: when the short-circuit does not apply and introspection reports the
token inactive, `validateAndSetUser` continues as `refreshToken` (which, with
fuel to run, resolves); when the introspection call throws, the catch runs
`refreshToken`, and if that also throws the run clears the whole token
record, settles Unauthenticated, and rethrows that error to the caller. -/
theorem C4_validate_fallback : ∀ f t w,
    (w.isLoggedIn && (w.accessToken == some t)) = false →
    (∀ u rest, w.introQueue = IntroOutcome.ok u :: rest → u.active = false → 1 ≤ f →
       validateAndSetUser (f + 1) t w
         = refreshToken f { w with introQueue := rest, introCalls := w.introCalls + 1 })
    ∧ (∀ o rest, w.introQueue = o :: rest → (∀ u, o ≠ IntroOutcome.ok u) →
       validateAndSetUser (f + 1) t w
         = match refreshToken f { w with introQueue := rest, introCalls := w.introCalls + 1 } with
           | (Except.ok _, w2) => (Except.ok (), w2)
           | (Except.error e2, w2) => (Except.error e2, clearSettle w2)) := by
  intro f t w hsc
  constructor
  · intro u rest hq hact hf
    obtain ⟨g, rfl⟩ : ∃ g, f = g + 1 := ⟨f - 1, by omega⟩
    rw [validateAndSetUser_succ, tryCatch_apply]
    unfold validateBody
    rw [bind_apply]
    simp only [getIsLoggedIn, bind_apply, getAccessToken, hsc, Bool.false_eq_true, if_false]
    have hok := refreshToken_runs_ok g { w with introQueue := rest, introCalls := w.introCalls + 1 }
    rcases hr : refreshToken (g + 1) { w with introQueue := rest, introCalls := w.introCalls + 1 }
      with ⟨r, w2⟩
    rw [hr] at hok
    cases hjx : extractJwtId t <;>
    · unfold validateToken
      simp only [bind_apply, fetchIntrospect_eq hq, pure_apply, hact, Bool.false_eq_true,
        if_false, hr]
      cases r with
      | ok a => cases a; rfl
      | error e => exact absurd hok (by simp)
  · intro o rest hq ho
    rw [validateAndSetUser_succ, tryCatch_apply]
    unfold validateBody
    rw [bind_apply]
    simp only [getIsLoggedIn, bind_apply, getAccessToken, hsc, Bool.false_eq_true, if_false]
    cases hjx : extractJwtId t <;>
    · unfold validateToken
      simp only [bind_apply, fetchIntrospect_eq hq, pure_apply, throwErr_apply]
      cases o with
      | ok u => exact absurd rfl (ho u)
      | netErr =>
        unfold validateCatch
        simp only [throwErr_apply]
        rw [tryCatch_apply]
        rcases hr : refreshToken f { w with introQueue := rest, introCalls := w.introCalls + 1 }
          with ⟨r, w2⟩
        cases r with
        | ok a => cases a; rfl
        | error e2 => rfl
      | httpErr s =>
        unfold validateCatch
        simp only [throwErr_apply]
        rw [tryCatch_apply]
        rcases hr : refreshToken f { w with introQueue := rest, introCalls := w.introCalls + 1 }
          with ⟨r, w2⟩
        cases r with
        | ok a => cases a; rfl
        | error e2 => rfl

theorem C4_witness :
    validateAndSetUser 2 "tok" wInactive
      = refreshToken 1 { wInactive with introQueue := [], introCalls := wInactive.introCalls + 1 } :=
  (C4_validate_fallback 1 "tok" wInactive rfl).1 inactiveUser [] rfl rfl (by omega)

/-! ## Claim C9 -/

/-- C9: for every length and every sequence of draws, `generateRandomString`
returns a string of exactly that length whose characters all lie in the
36-symbol alphabet of lowercase letters and digits (the charset literal of
the source). -/
theorem C9_random_string : ∀ (n : Nat) (draws : Nat → Fin 36),
    (generateRandomString n draws).length = n
    ∧ ∀ c ∈ (generateRandomString n draws).data,
        (('a' ≤ c ∧ c ≤ 'z') ∨ ('0' ≤ c ∧ c ≤ '9')) ∧ c ∈ oauthCharset.data := by
  intro n d
  have hdata : (generateRandomString n d).data
      = (((List.range n).map fun i => jsCharAt oauthCharset (d i)).map String.data).flatten := by
    unfold generateRandomString
    exact join_data _
  constructor
  · have hlen : (generateRandomString n d).length = (generateRandomString n d).data.length := rfl
    rw [hlen, hdata, List.length_flatten]
    have hgen : ∀ l : List Nat,
        (((l.map fun i => jsCharAt oauthCharset (d i)).map String.data).map List.length).sum
          = l.length := by
      intro l
      induction l with
      | nil => rfl
      | cons a as ih =>
        simp only [List.map_cons, List.sum_cons, ih, (charAt_oauthCharset (d a)).1,
          List.length_cons]
        omega
    simpa using hgen (List.range n)
  · intro c hc
    rw [hdata, List.mem_flatten] at hc
    obtain ⟨l, hl, hcl⟩ := hc
    rw [List.mem_map] at hl
    obtain ⟨s, hs, rfl⟩ := hl
    rw [List.mem_map] at hs
    obtain ⟨i, _, rfl⟩ := hs
    exact (charAt_oauthCharset (d i)).2 c hcl

theorem C9_witness :
    (generateRandomString 3 (fun _ => 0)).length = 3
    ∧ (('a' ≤ 'a' ∧ 'a' ≤ 'z') ∨ ('0' ≤ 'a' ∧ 'a' ≤ '9'))
      ∧ 'a' ∈ oauthCharset.data :=
  ⟨(C9_random_string 3 (fun _ => 0)).1,
   (C9_random_string 3 (fun _ => 0)).2 'a' (by decide)⟩
